import Mathlib

/-!
Verification of the FAOSTAT extraction scripts (extract_prices.py and
adhoc_load_fao_as_requested_QCL.py) against their specification.

The embedding models Python dicts as association lists in insertion order,
pandas DataFrames as a column list plus rows of optional cells, raised
exceptions as an error type threaded through Except, and the network as an
explicit parameter holding the response a request would produce.
-/

set_option maxHeartbeats 1000000

/-- A scalar JSON-like value appearing in a record field. -/
inductive Val where
  | str (s : String)
  | int (n : Int)
  | null
deriving DecidableEq

/-- A data record: a Python dict (field name to value) in insertion order. -/
abbrev RecT := List (String × Val)

/-- Python dict lookup: the first binding of the key, if any. -/
def lookupStr {α : Type} (k : String) : List (String × α) → Option α
  | [] => none
  | kv :: rest => if kv.1 = k then some kv.2 else lookupStr k rest

/-- One step of the column-collection loop of Records.df
(extract_prices.py lines 70-73): append the key unless already present. -/
def addKey (cols : List String) (k : String) : List String :=
  if k ∈ cols then cols else cols ++ [k]

/-- The keys of one record, in insertion order. -/
def recKeys (rec : RecT) : List String := rec.map Prod.fst

/-- All keys of a record sequence, concatenated in encounter order. -/
def allKeys (recs : List RecT) : List String := (recs.map recKeys).flatten

/-- The column computation of Records.df (extract_prices.py lines 69-73):
start from the expected order and append each unseen key of each record. -/
def collectCols (expected : List String) (recs : List RecT) : List String :=
  recs.foldl (fun cols rec => rec.foldl (fun cols kv => addKey cols kv.1) cols) expected

/-- Folding addKey over a flat key list; collectCols reduces to this. -/
def addKeys (cols : List String) (ks : List String) : List String := ks.foldl addKey cols

/-- One row of pandas DataFrame.from_records(recs, columns=cols): the record
aligned to the full column list, absent keys becoming nulls (NaN). -/
def mkRow (cols : List String) (rec : RecT) : List (Option Val) :=
  cols.map (fun c => lookupStr c rec)

/-- A row of the table labelled with its column names. -/
def rowCells (cols : List String) (rec : RecT) : List (String × Option Val) :=
  cols.map (fun c => (c, lookupStr c rec))

/-- The normalized table: a fixed column list and rows aligned to it. -/
structure DfT where
  columns : List String
  rows : List (List (Option Val))
deriving DecidableEq

/-- Records(data, columns).df (extract_prices.py lines 60-74): collect the
columns, then align every record to them as pandas from_records does. -/
def recordsDf (expected : List String) (recs : List RecT) : DfT :=
  { columns := collectCols expected recs
    rows := recs.map (mkRow (collectCols expected recs)) }

/-- Rendering of the spec side of claim C1: the keys of ks that are not in
seen, deduplicated, in first-seen order. -/
def firstSeenNewKeys (seen : List String) : List String → List String
  | [] => []
  | k :: ks =>
    if k ∈ seen then firstSeenNewKeys seen ks
    else k :: firstSeenNewKeys (seen ++ [k]) ks

/-- A decimal digit rendered as a character. -/
def digitChar (d : Nat) : Char :=
  match d with
  | 0 => '0' | 1 => '1' | 2 => '2' | 3 => '3' | 4 => '4'
  | 5 => '5' | 6 => '6' | 7 => '7' | 8 => '8' | _ => '9'

/-- Fuel-bounded decimal digits of n, most significant first. -/
def natReprAux : Nat → Nat → List Char
  | 0, _ => []
  | _ + 1, 0 => []
  | fuel + 1, n + 1 => natReprAux fuel ((n + 1) / 10) ++ [digitChar ((n + 1) % 10)]

/-- Python str() of a non-negative integer. -/
def natRepr (n : Nat) : String :=
  if n = 0 then "0" else String.mk (natReprAux (n + 1) n)

/-- Python str() of an integer. -/
def intRepr (i : Int) : String :=
  if i < 0 then "-" ++ natRepr i.natAbs else natRepr i.natAbs

/-- Python str.join for a separator and a list of strings. -/
def joinSep (sep : String) : List String → String
  | [] => ""
  | [x] => x
  | x :: y :: xs => x ++ sep ++ joinSep sep (y :: xs)

/-- An apostrophe character, as Python repr of a string uses around it. -/
def squoteChar : Char := '\x27'

/-- Python str() of a list of strings, as an f-string renders it. -/
def pyListRepr (ss : List String) : String :=
  "[" ++ joinSep ", " (ss.map (fun s => String.mk [squoteChar] ++ s ++ String.mk [squoteChar])) ++ "]"

/-- Python str(b).lower() for a bool: the strings true and false. -/
def pyBoolStrLower (b : Bool) : String :=
  if b then "true" else "false"

/-- The exceptions the scripts can raise, by kind, with their payloads. -/
inductive PyErr where
  | resourceNotFound (resource : String)
  | requestTimeout
  | httpError (status : Nat)
  | keyError (key : String)
  | valueError (msg : String)
  | indexError
  | exception (msg : String)
  | dataFetchError (domain : String) (cause : PyErr)
deriving DecidableEq

/-- Python str() of a raised exception, per kind. The dataFetchError kind is
the wrapper the spec describes; the code never constructs it. -/
def pyErrStr : PyErr → String
  | .resourceNotFound r => r ++ " não encontrado no servidor FAOSTAT"
  | .requestTimeout => "Tempo de requisição excedido"
  | .httpError s => "HTTP Error " ++ natRepr s
  | .keyError k => String.mk [squoteChar] ++ k ++ String.mk [squoteChar]
  | .valueError m => m
  | .indexError => "list index out of range"
  | .exception m => m
  | .dataFetchError d c => d ++ ": " ++ pyErrStr c

/-- Python str.split for a single-character separator (the only shape the
scripts use), keeping empty pieces, as Python does. -/
def splitOnChar (sep : Char) : List Char → List (List Char)
  | [] => [[]]
  | c :: rest =>
    if c = sep then [] :: splitOnChar sep rest
    else
      match splitOnChar sep rest with
      | [] => [[c]]
      | g :: gs => (c :: g) :: gs

/-- url.split("/")[-1].split("?")[0] (extract_prices.py line 38): the last
path segment of the URL with any query string stripped. -/
def lastSegment (url : String) : String :=
  String.mk ((splitOnChar '?' ((splitOnChar '/' url.data).getLastD [])).headD [])

/-- Request._raise_for_status of extract_prices.py (lines 36-42): a 500 with
the exact empty-index sentinel body is a resource-not-found naming the last
URL path segment, a 524 is a timeout, and any other non-success status
(400-599, as requests.raise_for_status treats it) is a generic HTTP error. -/
def raiseForStatus (status : Nat) (body : String) (url : String) : Except PyErr Unit :=
  if status = 500 ∧ body = "Index: 0, Size: 0" then
    Except.error (PyErr.resourceNotFound (lastSegment url))
  else if status = 524 then Except.error PyErr.requestTimeout
  else if 400 ≤ status ∧ status < 600 then Except.error (PyErr.httpError status)
  else Except.ok ()

/-- Request.get of adhoc_load_fao_as_requested_QCL.py (lines 16-19): only
resp.raise_for_status(), with no classification of 500-sentinel or 524. -/
def adhocRaiseForStatus (status : Nat) (_body : String) : Except PyErr Unit :=
  if 400 ≤ status ∧ status < 600 then Except.error (PyErr.httpError status)
  else Except.ok ()

/-- Python dict.get(k, dflt). -/
def pyDictGet {α : Type} (k : String) (d : List (String × α)) (dflt : α) : α :=
  match lookupStr k d with
  | some v => v
  | none => dflt

/-- Request.get_data of extract_prices.py (lines 44-46):
response.json().get("data", []), the envelope modelled as a dict from field
name to record list. -/
def getDataPrice (body : List (String × List RecT)) : List RecT :=
  pyDictGet "data" body []

/-- Request.get_data of adhoc_load_fao_as_requested_QCL.py (lines 21-23):
response.json()["data"], raising KeyError when the field is absent. -/
def getDataAdhoc (body : List (String × List RecT)) : Except PyErr (List RecT) :=
  match lookupStr "data" body with
  | some v => Except.ok v
  | none => Except.error (PyErr.keyError "data")

/-- A Python scalar as it appears in a filter value. -/
inductive Scalar where
  | s (v : String)
  | i (n : Int)
deriving DecidableEq

/-- A filter value: a scalar or a list of scalars. -/
inductive FVal where
  | scalar (v : Scalar)
  | list (vs : List Scalar)
deriving DecidableEq

/-- Python str() of a scalar. -/
def pyStrScalar : Scalar → String
  | .s v => v
  | .i n => intRepr n

/-- A value appearing in the built query parameter list, keeping its Python
type: a str, an int, a bool, or a still-unserialized list. -/
inductive PVal where
  | str (v : String)
  | int (n : Int)
  | bool (b : Bool)
  | list (vs : List Scalar)
deriving DecidableEq

/-- FAOSTAT.get_data parameter building in extract_prices.py (lines 98-114):
list filter values are comma-joined into one string, scalar filter values
pass through, the four display flags serialize as lowercase true/false, and
limit is stringified. -/
def buildParamsPrice (filters : List (String × FVal)) (sc sf sn nv : Bool)
    (limit : Int) (outputType : String) : List (String × PVal) :=
  filters.map (fun kv =>
    match kv.2 with
    | FVal.list vs => (kv.1, PVal.str (joinSep "," (vs.map pyStrScalar)))
    | FVal.scalar (Scalar.s v) => (kv.1, PVal.str v)
    | FVal.scalar (Scalar.i n) => (kv.1, PVal.int n))
  ++ [("show_codes", PVal.str (pyBoolStrLower sc)),
      ("show_flags", PVal.str (pyBoolStrLower sf)),
      ("show_notes", PVal.str (pyBoolStrLower sn)),
      ("null_values", PVal.str (pyBoolStrLower nv)),
      ("limit", PVal.str (intRepr limit)),
      ("output_type", PVal.str outputType)]

/-- A filter value appended raw, unserialized. -/
def fvalRaw : FVal → PVal
  | .scalar (.s v) => PVal.str v
  | .scalar (.i n) => PVal.int n
  | .list vs => PVal.list vs

/-- FAOSTAT.get_data parameter building in
adhoc_load_fao_as_requested_QCL.py (lines 50-60): every filter value and
every display flag is appended raw, with no serialization. -/
def buildParamsAdhoc (filters : List (String × FVal)) (sc sf sn nv : Bool)
    (limit : Int) (outputType : String) : List (String × PVal) :=
  filters.map (fun kv => (kv.1, fvalRaw kv.2))
  ++ [("show_codes", PVal.bool sc),
      ("show_flags", PVal.bool sf),
      ("show_notes", PVal.bool sn),
      ("null_values", PVal.bool nv),
      ("limit", PVal.int limit),
      ("output_type", PVal.str outputType)]

/-- The default of the limit argument of FAOSTAT.get_data in both scripts. -/
def getDataLimitDefault : Int := -1

/-- The default of the output_type argument of FAOSTAT.get_data in both
scripts. -/
def getDataOutputTypeDefault : String := "objects"

/-- The diagnostic printed by FAOSTAT.get_data of extract_prices.py on a
fetch failure (line 120). -/
def fetchErrMsg (domain : String) : String :=
  "Erro ao acessar o domínio " ++ domain
    ++ ". Verifique se o domínio existe e os parâmetros estão corretos."

/-- FAOSTAT.get_data of extract_prices.py (lines 116-121) around the fetch:
on success the records are normalized; on failure the diagnostic naming the
domain is printed (collected here as a log) and the original error is
re-raised unchanged. -/
def faostatGetDataPrice (domain : String) (fetchResult : Except PyErr (List RecT)) :
    Except PyErr DfT × List String :=
  match fetchResult with
  | Except.ok data => (Except.ok (recordsDf [] data), [])
  | Except.error e => (Except.error e, [fetchErrMsg domain])

/-- The pattern occurs somewhere in the string, verbatim. -/
def strContains (s pat : String) : Prop :=
  ∃ l r, s.data = l ++ pat.data ++ r

/-- A catalog entry after codelist normalization: its integer code and its
display label (the label column, with description as the fallback the price
script applies when label is absent). -/
structure CodeEntry where
  code : Int
  label : String
deriving DecidableEq

/-- The message of the ValueError raised by the price loader when no catalog
item matches (extract_prices.py line 158). -/
def noMatchMsg (grains : List String) : String :=
  "No items found matching the specified grains: " ++ pyListRepr grains

/-- Label resolution of extract_prices.py (lines 153-158 with the code
extraction of line 190), operating on the normalized codelist frame whose
rows are the CodeEntry values. On an empty catalog the frame has no columns
at all, so after the fallback from label to description the column access
all_items[label_column] raises KeyError (for description) before any
emptiness check; on a nonempty catalog the label column exists, the entries
whose label is among the requested labels are kept, an empty selection
raises ValueError, and otherwise the selected integer codes are returned. -/
def resolveLabelsPrice (catalog : List CodeEntry) (grains : List String) :
    Except PyErr (List Int) :=
  if catalog = [] then Except.error (PyErr.keyError "description")
  else if catalog.filter (fun e => decide (e.label ∈ grains)) = [] then
    Except.error (PyErr.valueError (noMatchMsg grains))
  else
    Except.ok ((catalog.filter (fun e => decide (e.label ∈ grains))).map CodeEntry.code)

/-- Label resolution of adhoc_load_fao_as_requested_QCL.py (lines 113-115).
On an empty catalog pd.DataFrame([]) has no label column and
all_items[...] raises KeyError (for label); on a nonempty catalog there is
no emptiness check on the selection, so the possibly empty matching code
list is returned without error. -/
def resolveLabelsProd (catalog : List CodeEntry) (crops : List String) :
    Except PyErr (List Int) :=
  if catalog = [] then Except.error (PyErr.keyError "label")
  else Except.ok ((catalog.filter (fun e => decide (e.label ∈ crops))).map CodeEntry.code)

/-- The components datetime.now() contributes to a formatted timestamp. -/
structure Timestamp where
  year : Nat
  month : Nat
  day : Nat
  hour : Nat
  minute : Nat
  second : Nat

/-- Zero-padding to two digits, as the strftime fields for month, day, hour,
minute and second do. -/
def pad2 (n : Nat) : String :=
  if n < 10 then "0" ++ natRepr n else natRepr n

/-- Zero-padding to four digits, as the strftime year field does. -/
def pad4 (n : Nat) : String :=
  if n < 10 then "000" ++ natRepr n
  else if n < 100 then "00" ++ natRepr n
  else if n < 1000 then "0" ++ natRepr n
  else natRepr n

/-- The strftime format of extract_prices.py line 205: year, month, day, a
literal T, hour, minute, second, with no separators. -/
def strftimePrice (t : Timestamp) : String :=
  pad4 t.year ++ pad2 t.month ++ pad2 t.day ++ "T"
    ++ pad2 t.hour ++ pad2 t.minute ++ pad2 t.second

/-- The strftime format of adhoc_load_fao_as_requested_QCL.py line 126:
year-month-day, a literal T, then hour, minute, second. -/
def strftimeProd (t : Timestamp) : String :=
  pad4 t.year ++ "-" ++ pad2 t.month ++ "-" ++ pad2 t.day ++ "T"
    ++ pad2 t.hour ++ pad2 t.minute ++ pad2 t.second

/-- The opening brace of a Python format field. -/
def lbrace : Char := '\x7b'

/-- The closing brace of a Python format field. -/
def rbrace : Char := '\x7d'

/-- Python str.format over the subset the scripts use (plain named fields):
literal mode copies characters until an opening brace; field mode collects
the field name (held reversed) until the closing brace and substitutes its
value; an unknown field name or an unterminated field is a failure (none),
as format would raise. -/
def pyFormatGo (subs : List (String × String)) :
    List Char → Option (List Char) → Option (List Char)
  | [], none => some []
  | [], some _ => none
  | c :: rest, none =>
    if c = lbrace then pyFormatGo subs rest (some [])
    else Option.map (fun out => c :: out) (pyFormatGo subs rest none)
  | c :: rest, some acc =>
    if c = rbrace then
      match lookupStr (String.mk acc.reverse) subs with
      | none => none
      | some v => Option.map (fun out => v.data ++ out) (pyFormatGo subs rest none)
    else pyFormatGo subs rest (some (c :: acc))

/-- Python template.format(subs). -/
def pyFormat (template : String) (subs : List (String × String)) : Option String :=
  Option.map String.mk (pyFormatGo subs template.data none)

/-- The describe placeholder value of the production loader
(adhoc_load_fao_as_requested_QCL.py line 125). -/
def describeStr (nItems nYears : Nat) : String :=
  natRepr nItems ++ "items_" ++ natRepr nYears ++ "years"

/-- The filename substitution of extract_prices.py lines 202-206: the count
of requested grains, the count of requested years, and the timestamp. -/
def priceFilename (output_csv : String) (grains : List String) (years : List Int)
    (t : Timestamp) : Option String :=
  pyFormat output_csv
    [("n_grains", natRepr grains.length), ("n_years", natRepr years.length),
     ("ts", strftimePrice t)]

/-- The filename substitution of adhoc_load_fao_as_requested_QCL.py lines
122-127: the dataset code, the describe string built from the counts of
requested crops and years, and the timestamp. -/
def prodFilename (tmpl domain : String) (crops : List String) (years : List Int)
    (t : Timestamp) : Option String :=
  pyFormat tmpl
    [("dataset", domain), ("describe", describeStr crops.length years.length),
     ("timestamp", strftimeProd t)]

/-- The message of the exception raised when the exploratory probe request
of the price loader fails (extract_prices.py line 184). -/
def testFailMsg (domain : String) (cause : String) : String :=
  "Falha ao acessar dados do domínio " ++ domain
    ++ ". Verifique se o domínio existe e contém dados para os itens especificados. Erro: "
    ++ cause

/-- load_price_data_of_grains of extract_prices.py (lines 131-214), network
abstracted: the codelist already normalized into catalog, the probe request
and the full request as functions from the codes and years they are given
to the records they would return or the error they would raise. Resolution
failure raises ValueError; an empty year list raises IndexError at years[0];
a probe failure is wrapped into a new exception; a full-fetch failure is
re-raised unchanged; on success the generated filename is returned. -/
def load_price_data_of_grains (domain : String) (catalog : List CodeEntry)
    (grains : List String) (years : List Int) (output_csv : String)
    (testFetch : Int → Int → Except PyErr (List RecT))
    (fetch : List Int → List Int → Except PyErr (List RecT))
    (t : Timestamp) : Except PyErr String :=
  match catalog.filter (fun e => decide (e.label ∈ grains)) with
  | [] => Except.error (PyErr.valueError (noMatchMsg grains))
  | e0 :: sel =>
    match years with
    | [] => Except.error PyErr.indexError
    | y0 :: _ =>
      match testFetch e0.code y0 with
      | Except.error te => Except.error (PyErr.exception (testFailMsg domain (pyErrStr te)))
      | Except.ok _ =>
        match fetch ((e0 :: sel).map CodeEntry.code) years with
        | Except.error e => Except.error e
        | Except.ok _ =>
          match priceFilename output_csv grains years t with
          | none => Except.error (PyErr.keyError "format")
          | some fname => Except.ok fname

/-- load_production_data_of_crops_and_livestock_products of
adhoc_load_fao_as_requested_QCL.py (lines 92-131), network abstracted as in
the price loader. Label resolution has no emptiness check; the fetched
records are normalized; when save_as_csv holds a template the substituted
filename is also returned. -/
def load_production_data_of_crops_and_livestock_products (domain : String)
    (catalog : List CodeEntry) (crops : List String) (years : List Int)
    (save_as_csv : Option String)
    (fetch : List Int → List Int → Except PyErr (List RecT))
    (t : Timestamp) : Except PyErr (DfT × Option String) :=
  match fetch ((catalog.filter (fun e => decide (e.label ∈ crops))).map CodeEntry.code) years with
  | Except.error e => Except.error e
  | Except.ok data =>
    match save_as_csv with
    | none => Except.ok (recordsDf [] data, none)
    | some tmpl =>
      match prodFilename tmpl domain crops years t with
      | none => Except.error (PyErr.keyError "format")
      | some fname => Except.ok (recordsDf [] data, some fname)

/-- No colon occurs in the string (filesystem-safe timestamp). -/
abbrev colonFree (s : String) : Prop := ':' ∉ s.data

theorem mem_addKey_self (cols : List String) (k : String) : k ∈ addKey cols k := by
  by_cases h : k ∈ cols <;> simp [addKey, h]

theorem mem_addKey_of_mem {x : String} {cols : List String} (h : x ∈ cols) (k : String) :
    x ∈ addKey cols k := by
  by_cases hk : k ∈ cols <;> simp [addKey, hk, h]

theorem addKeys_cons (acc : List String) (k : String) (ks : List String) :
    addKeys acc (k :: ks) = addKeys (addKey acc k) ks := by
  simp [addKeys]

theorem mem_addKeys_of_mem {x : String} :
    ∀ (ks acc : List String), x ∈ acc → x ∈ addKeys acc ks
  | [], _, h => h
  | k :: ks, acc, h => by
    rw [addKeys_cons]
    exact mem_addKeys_of_mem ks _ (mem_addKey_of_mem h k)

theorem mem_addKeys_of_mem_keys {x : String} :
    ∀ (ks acc : List String), x ∈ ks → x ∈ addKeys acc ks
  | k :: ks, acc, h => by
    rw [addKeys_cons]
    rcases List.mem_cons.mp h with h1 | h2
    · subst h1; exact mem_addKeys_of_mem ks _ (mem_addKey_self acc x)
    · exact mem_addKeys_of_mem_keys ks _ h2

theorem addKeys_eq_append :
    ∀ (ks acc : List String), addKeys acc ks = acc ++ firstSeenNewKeys acc ks
  | [], acc => by simp [addKeys, firstSeenNewKeys]
  | k :: ks, acc => by
    rw [addKeys_cons]
    by_cases hk : k ∈ acc
    · rw [show addKey acc k = acc from if_pos hk, addKeys_eq_append ks acc]
      simp [firstSeenNewKeys, hk]
    · rw [show addKey acc k = acc ++ [k] from if_neg hk, addKeys_eq_append ks (acc ++ [k])]
      simp [firstSeenNewKeys, hk]

theorem collectCols_eq_addKeys (recs : List RecT) :
    ∀ expected, collectCols expected recs = addKeys expected (allKeys recs) := by
  induction recs with
  | nil => intro expected; simp [collectCols, allKeys, addKeys]
  | cons r rs ih =>
    intro expected
    have h1 : collectCols expected (r :: rs)
        = collectCols (addKeys expected (recKeys r)) rs := by
      simp [collectCols, addKeys, recKeys, List.foldl_map]
    have h2 : allKeys (r :: rs) = recKeys r ++ allKeys rs := by
      simp [allKeys]
    rw [h1, ih, h2]
    simp [addKeys, List.foldl_append]

theorem mem_collectCols_of_mem_allKeys {k : String} {recs : List RecT}
    (expected : List String) (h : k ∈ allKeys recs) :
    k ∈ collectCols expected recs := by
  rw [collectCols_eq_addKeys]
  exact mem_addKeys_of_mem_keys _ _ h

theorem mem_allKeys_of_mem_rec {kv : String × Val} {rec : RecT} {recs : List RecT}
    (hrec : rec ∈ recs) (hkv : kv ∈ rec) : kv.1 ∈ allKeys recs := by
  simp only [allKeys, List.mem_flatten, List.mem_map]
  exact ⟨recKeys rec, ⟨rec, hrec, rfl⟩, List.mem_map_of_mem Prod.fst hkv⟩

theorem lookupStr_eq_none {α : Type} (k : String) :
    ∀ (rec : List (String × α)), (∀ kv ∈ rec, kv.1 ≠ k) → lookupStr k rec = none
  | [], _ => rfl
  | kv :: rest, h => by
    have hne : ¬ kv.1 = k := h kv (List.mem_cons_self kv rest)
    simp only [lookupStr, if_neg hne]
    exact lookupStr_eq_none k rest (fun kv2 hm => h kv2 (List.mem_cons_of_mem kv hm))

theorem lookupStr_eq_none_of_not_mem_keys {rec : RecT} {c : String}
    (h : c ∉ recKeys rec) : lookupStr c rec = none := by
  refine lookupStr_eq_none c rec (fun kv hkv he => h ?_)
  rw [← he]
  exact List.mem_map_of_mem Prod.fst hkv

theorem lookupStr_of_mem_nodup {kv : String × Val} :
    ∀ (rec : RecT), (recKeys rec).Nodup → kv ∈ rec → lookupStr kv.1 rec = some kv.2
  | hd :: tl, hnd, hmem => by
    rcases List.mem_cons.mp hmem with h1 | h2
    · subst h1
      simp [lookupStr]
    · have hk : kv.1 ∈ recKeys tl := List.mem_map_of_mem Prod.fst h2
      have hnd2 : (recKeys tl).Nodup ∧ hd.1 ∉ recKeys tl := by
        have hnd1 : (hd.1 :: recKeys tl).Nodup := hnd
        have := List.nodup_cons.mp hnd1
        exact ⟨this.2, this.1⟩
      have hne : ¬ hd.1 = kv.1 := fun he => hnd2.2 (he ▸ hk)
      simp only [lookupStr, if_neg hne]
      exact lookupStr_of_mem_nodup tl hnd2.1 h2

theorem mem_rowCells_of_lookup {cols : List String} {rec : RecT} {c : String}
    {v : Option Val} (hc : c ∈ cols) (hv : lookupStr c rec = v) :
    (c, v) ∈ rowCells cols rec := by
  simp only [rowCells, List.mem_map]
  exact ⟨c, hc, by rw [hv]⟩

/-- C1: for every record sequence and preferred column list, the normalizer
Records.df orders its columns as: the preferred columns first, in the given
order, followed by every additional key of the records in first-seen order
across the input sequence; and on the input of two records b=1,a=2 and c=3
with preferred list a, the column list is a, b, c. -/
theorem C1_normalizer_column_order :
    (∀ (pref : List String) (recs : List RecT),
        (recordsDf pref recs).columns = pref ++ firstSeenNewKeys pref (allKeys recs))
    ∧ (recordsDf ["a"] [[("b", Val.int 1), ("a", Val.int 2)], [("c", Val.int 3)]]).columns
        = ["a", "b", "c"] := by
  constructor
  · intro pref recs
    show collectCols pref recs = _
    rw [collectCols_eq_addKeys, addKeys_eq_append]
  · decide

/-- C2: normalization of any record sequence with heterogeneous keys yields a
table where every row is aligned to the one full column list (identical column
set per row, with the length of every row equal to the number of columns), a
record missing a key has a null cell in that column, and no record loses any
of its key/value pairs. -/
theorem C2_normalizer_uniform_rows :
    ∀ (pref : List String) (recs : List RecT),
      (∀ rec ∈ recs, (recKeys rec).Nodup) →
      ((recordsDf pref recs).rows = recs.map (mkRow (recordsDf pref recs).columns)
       ∧ (∀ rec : RecT, (mkRow (recordsDf pref recs).columns rec).length
            = (recordsDf pref recs).columns.length)
       ∧ (∀ rec ∈ recs, ∀ kv ∈ rec,
            (kv.1, some kv.2) ∈ rowCells (recordsDf pref recs).columns rec)
       ∧ (∀ rec ∈ recs, ∀ c ∈ (recordsDf pref recs).columns, c ∉ recKeys rec →
            (c, (none : Option Val)) ∈ rowCells (recordsDf pref recs).columns rec)) := by
  intro pref recs hnd
  refine ⟨rfl, fun rec => by simp [mkRow], ?_, ?_⟩
  · intro rec hrec kv hkv
    have hc : kv.1 ∈ (recordsDf pref recs).columns :=
      mem_collectCols_of_mem_allKeys pref (mem_allKeys_of_mem_rec hrec hkv)
    exact mem_rowCells_of_lookup hc (lookupStr_of_mem_nodup rec (hnd rec hrec) hkv)
  · intro rec _ c hc hck
    exact mem_rowCells_of_lookup hc (lookupStr_eq_none_of_not_mem_keys hck)

/-- C2 witness: at the record sequence b=1,a=2 and c=3 with preferred list a,
the first record keeps its pair b=1 in its normalized row. -/
theorem C2_normalizer_uniform_rows_witness :
    ("b", some (Val.int 1)) ∈
      rowCells (recordsDf ["a"] [[("b", Val.int 1), ("a", Val.int 2)], [("c", Val.int 3)]]).columns
        [("b", Val.int 1), ("a", Val.int 2)] :=
  (C2_normalizer_uniform_rows ["a"]
      [[("b", Val.int 1), ("a", Val.int 2)], [("c", Val.int 3)]] (by decide)).2.2.1
    [("b", Val.int 1), ("a", Val.int 2)] (by decide) ("b", Val.int 1) (by decide)

/-- C9: the output column list always begins with the entire preferred list,
so every preferred column appears in the table even when no input record
contains that key, and such a column is all-null: every record gets a null
cell in it. -/
theorem C9_unseen_preferred_columns :
    ∀ (pref : List String) (recs : List RecT),
      (∃ rest, (recordsDf pref recs).columns = pref ++ rest)
      ∧ (∀ c ∈ pref, c ∈ (recordsDf pref recs).columns)
      ∧ (∀ c ∈ pref, c ∉ allKeys recs → ∀ rec ∈ recs,
           (c, (none : Option Val)) ∈ rowCells (recordsDf pref recs).columns rec) := by
  intro pref recs
  have hcols : (recordsDf pref recs).columns = pref ++ firstSeenNewKeys pref (allKeys recs) := by
    show collectCols pref recs = _
    rw [collectCols_eq_addKeys, addKeys_eq_append]
  refine ⟨⟨firstSeenNewKeys pref (allKeys recs), hcols⟩, ?_, ?_⟩
  · intro c hc
    rw [hcols]
    exact List.mem_append_left _ hc
  · intro c hc hnk rec hrec
    have hcmem : c ∈ (recordsDf pref recs).columns := by
      rw [hcols]; exact List.mem_append_left _ hc
    have hnkr : c ∉ recKeys rec := fun hk => by
      refine hnk ?_
      simp only [allKeys, List.mem_flatten, List.mem_map]
      exact ⟨recKeys rec, ⟨rec, hrec, rfl⟩, hk⟩
    exact mem_rowCells_of_lookup hcmem (lookupStr_eq_none_of_not_mem_keys hnkr)

/-- C9 witness: with preferred column z and a single record holding only key
a, the column z appears and the record's row has a null cell in it. -/
theorem C9_unseen_preferred_columns_witness :
    ("z", (none : Option Val)) ∈
      rowCells (recordsDf ["z"] [[("a", Val.int 1)]]).columns [("a", Val.int 1)] :=
  (C9_unseen_preferred_columns ["z"] [[("a", Val.int 1)]]).2.2
    "z" (by decide) (by decide) [("a", Val.int 1)] (by decide)

/-- C4 counterexample: the wrapper of adhoc_load_fao_as_requested_QCL.py
does not classify failures: an HTTP 524 response raises the generic HTTP
error there, not the request-timeout error the claim requires. -/
theorem C4_wrapper_classification_counterexample :
    adhocRaiseForStatus 524 "" = Except.error (PyErr.httpError 524)
    ∧ PyErr.httpError 524 ≠ PyErr.requestTimeout :=
  ⟨rfl, by decide⟩

/-- C4 amended: the extract_prices.py wrapper classifies failure responses
before generic status handling: a 500 whose body is exactly the sentinel
raises resource-not-found naming the last segment of the URL path (XX for a
codelist path ending in /XX), a 524 raises the timeout error regardless of
body, and any other non-success status raises the generic HTTP error. The
adhoc_load_fao_as_requested_QCL.py wrapper instead applies only the generic
status handling. -/
theorem C4_wrapper_classification_amended :
    (∀ url body, raiseForStatus 500 "Index: 0, Size: 0" url
        = Except.error (PyErr.resourceNotFound (lastSegment url))
      ∧ raiseForStatus 524 body url = Except.error PyErr.requestTimeout)
    ∧ lastSegment "https://faostatservices.fao.org/api/v1/en/codes/items/XX" = "XX"
    ∧ (∀ status body url, 400 ≤ status → status < 600 → status ≠ 524 →
        ¬(status = 500 ∧ body = "Index: 0, Size: 0") →
        raiseForStatus status body url = Except.error (PyErr.httpError status))
    ∧ (∀ status body, 400 ≤ status → status < 600 →
        adhocRaiseForStatus status body = Except.error (PyErr.httpError status)) := by
  refine ⟨fun url body => ⟨?_, ?_⟩, by decide, ?_, ?_⟩
  · simp [raiseForStatus]
  · simp [raiseForStatus]
  · intro status body url h4 h6 hne hsent
    unfold raiseForStatus
    rw [if_neg hsent, if_neg hne, if_pos ⟨h4, h6⟩]
  · intro status body h4 h6
    unfold adhocRaiseForStatus
    rw [if_pos ⟨h4, h6⟩]

/-- C4 witness: a 404 in the price wrapper and a 524 in the adhoc wrapper
both surface as generic HTTP errors. -/
theorem C4_wrapper_classification_amended_witness :
    raiseForStatus 404 "not found" "https://example.org/x" = Except.error (PyErr.httpError 404)
    ∧ adhocRaiseForStatus 524 "gateway timeout" = Except.error (PyErr.httpError 524) :=
  ⟨C4_wrapper_classification_amended.2.2.1 404 "not found" "https://example.org/x"
      (by decide) (by decide) (by decide) (by decide),
   C4_wrapper_classification_amended.2.2.2 524 "gateway timeout" (by decide) (by decide)⟩

/-- C5 counterexample: the adhoc_load_fao_as_requested_QCL.py fetcher
appends a list filter value raw instead of comma-joining it into a string,
and appends the display flags as raw booleans, never as the lowercase
strings the claim requires. -/
theorem C5_query_params_counterexample :
    buildParamsAdhoc [("item", FVal.list [Scalar.i 1, Scalar.i 2])] true true true true (-1) "objects"
      = [("item", PVal.list [Scalar.i 1, Scalar.i 2]),
         ("show_codes", PVal.bool true), ("show_flags", PVal.bool true),
         ("show_notes", PVal.bool true), ("null_values", PVal.bool true),
         ("limit", PVal.int (-1)), ("output_type", PVal.str "objects")]
    ∧ PVal.list [Scalar.i 1, Scalar.i 2] ≠ PVal.str "1,2"
    ∧ ("show_codes", PVal.str "true")
        ∉ buildParamsAdhoc [("item", FVal.list [Scalar.i 1, Scalar.i 2])]
            true true true true (-1) "objects" :=
  ⟨rfl, by decide, by decide⟩

/-- C5 amended: the extract_prices.py fetcher serializes every list filter
value as one comma-joined string, each display flag as the lowercase string
true or false, limit stringified with default -1, and output_type defaulting
to objects; the adhoc_load_fao_as_requested_QCL.py fetcher appends every
filter value and flag raw, with no serialization of its own. -/
theorem C5_query_params_amended :
    ∀ (filters : List (String × FVal)) (sc sf sn nv : Bool) (limit : Int) (ot : String),
      (∀ k vs, (k, FVal.list vs) ∈ filters →
        (k, PVal.str (joinSep "," (vs.map pyStrScalar)))
          ∈ buildParamsPrice filters sc sf sn nv limit ot)
      ∧ ("show_codes", PVal.str (pyBoolStrLower sc)) ∈ buildParamsPrice filters sc sf sn nv limit ot
      ∧ ("show_flags", PVal.str (pyBoolStrLower sf)) ∈ buildParamsPrice filters sc sf sn nv limit ot
      ∧ ("show_notes", PVal.str (pyBoolStrLower sn)) ∈ buildParamsPrice filters sc sf sn nv limit ot
      ∧ ("null_values", PVal.str (pyBoolStrLower nv)) ∈ buildParamsPrice filters sc sf sn nv limit ot
      ∧ ("limit", PVal.str (intRepr limit)) ∈ buildParamsPrice filters sc sf sn nv limit ot
      ∧ ("output_type", PVal.str ot) ∈ buildParamsPrice filters sc sf sn nv limit ot
      ∧ (pyBoolStrLower sc = "true" ∨ pyBoolStrLower sc = "false")
      ∧ getDataLimitDefault = -1
      ∧ getDataOutputTypeDefault = "objects"
      ∧ intRepr getDataLimitDefault = "-1"
      ∧ (∀ k v, (k, v) ∈ filters → (k, fvalRaw v) ∈ buildParamsAdhoc filters sc sf sn nv limit ot)
      ∧ ("show_codes", PVal.bool sc) ∈ buildParamsAdhoc filters sc sf sn nv limit ot
      ∧ ("limit", PVal.int limit) ∈ buildParamsAdhoc filters sc sf sn nv limit ot := by
  intro filters sc sf sn nv limit ot
  refine ⟨?_, ?_, ?_, ?_, ?_, ?_, ?_, ?_, rfl, rfl, by decide, ?_, ?_, ?_⟩
  · intro k vs h
    exact List.mem_append_left _ (List.mem_map_of_mem _ h)
  · exact List.mem_append_right _ (by simp)
  · exact List.mem_append_right _ (by simp)
  · exact List.mem_append_right _ (by simp)
  · exact List.mem_append_right _ (by simp)
  · exact List.mem_append_right _ (by simp)
  · exact List.mem_append_right _ (by simp)
  · cases sc <;> simp [pyBoolStrLower]
  · intro k v h
    exact List.mem_append_left _ (List.mem_map_of_mem _ h)
  · exact List.mem_append_right _ (by simp)
  · exact List.mem_append_right _ (by simp)

/-- C5 witness: the price fetcher serializes the filter item=[1,2] as the
single comma-joined string 1,2. -/
theorem C5_query_params_amended_witness :
    ("item", PVal.str "1,2") ∈ buildParamsPrice [("item", FVal.list [Scalar.i 1, Scalar.i 2])]
      true true false false (-1) "objects" :=
  (C5_query_params_amended [("item", FVal.list [Scalar.i 1, Scalar.i 2])]
      true true false false (-1) "objects").1 "item" [Scalar.i 1, Scalar.i 2] (by decide)

/-- C6 counterexample: on an envelope without a data field the
adhoc_load_fao_as_requested_QCL.py extraction raises KeyError instead of
yielding the empty sequence the claim requires. -/
theorem C6_data_field_counterexample :
    getDataAdhoc ([] : List (String × List RecT)) = Except.error (PyErr.keyError "data")
    ∧ getDataPrice ([] : List (String × List RecT)) = [] :=
  ⟨rfl, rfl⟩

/-- C6 amended: on success both scripts extract the data field of the JSON
envelope; when the field is missing, extract_prices.py yields the empty
sequence while adhoc_load_fao_as_requested_QCL.py raises KeyError. -/
theorem C6_data_field_amended :
    ∀ (body : List (String × List RecT)),
      (lookupStr "data" body = none →
        getDataPrice body = [] ∧ getDataAdhoc body = Except.error (PyErr.keyError "data"))
      ∧ (∀ recs, lookupStr "data" body = some recs →
        getDataPrice body = recs ∧ getDataAdhoc body = Except.ok recs) := by
  intro body
  constructor
  · intro h
    exact ⟨by simp [getDataPrice, pyDictGet, h], by simp [getDataAdhoc, h]⟩
  · intro recs h
    exact ⟨by simp [getDataPrice, pyDictGet, h], by simp [getDataAdhoc, h]⟩

/-- C6 witness: an envelope holding only a metadata field has no data field;
the price extraction yields the empty sequence and the adhoc extraction
raises KeyError. -/
theorem C6_data_field_amended_witness :
    getDataPrice [("metadata", ([] : List RecT))] = []
    ∧ getDataAdhoc [("metadata", ([] : List RecT))] = Except.error (PyErr.keyError "data") :=
  (C6_data_field_amended [("metadata", ([] : List RecT))]).1 rfl

/-- C7 counterexample: when the fetch inside FAOSTAT.get_data of
extract_prices.py fails with a timeout, the propagated error is the original
timeout itself, which is not the domain-tagged wrapper error the claim
requires. -/
theorem C7_fetch_error_counterexample :
    (faostatGetDataPrice "PP" (Except.error PyErr.requestTimeout)).1
      = Except.error PyErr.requestTimeout
    ∧ PyErr.requestTimeout ≠ PyErr.dataFetchError "PP" PyErr.requestTimeout :=
  ⟨rfl, by decide⟩

/-- C7 amended: on any fetch failure, FAOSTAT.get_data of extract_prices.py
prints a diagnostic naming the domain code and re-raises the original error
unchanged, with no wrapping; on success it returns the normalized records
with no diagnostic. -/
theorem C7_fetch_error_amended :
    ∀ (domain : String) (e : PyErr) (data : List RecT),
      faostatGetDataPrice domain (Except.error e) = (Except.error e, [fetchErrMsg domain])
      ∧ faostatGetDataPrice domain (Except.ok data) = (Except.ok (recordsDf [] data), [])
      ∧ strContains (fetchErrMsg domain) domain := by
  intro domain e data
  refine ⟨rfl, rfl, ⟨"Erro ao acessar o domínio ".data,
    ". Verifique se o domínio existe e os parâmetros estão corretos.".data, ?_⟩⟩
  show (("Erro ao acessar o domínio " ++ domain)
      ++ ". Verifique se o domínio existe e os parâmetros estão corretos.").data = _
  rw [String.data_append, String.data_append]

theorem digitChar_ne_colon : ∀ d : Nat, digitChar d ≠ ':'
  | 0 | 1 | 2 | 3 | 4 | 5 | 6 | 7 | 8 => by decide
  | _ + 9 => (by decide : ('9' : Char) ≠ ':')

theorem natReprAux_colonFree : ∀ (fuel n : Nat), ':' ∉ natReprAux fuel n
  | 0, _ => by simp [natReprAux]
  | _ + 1, 0 => by simp [natReprAux]
  | fuel + 1, n + 1 => by
    intro hmem
    have hmem2 : ':' ∈ natReprAux fuel ((n + 1) / 10) ++ [digitChar ((n + 1) % 10)] := hmem
    rcases List.mem_append.mp hmem2 with h | h
    · exact natReprAux_colonFree fuel ((n + 1) / 10) h
    · exact digitChar_ne_colon ((n + 1) % 10) (List.mem_singleton.mp h).symm

theorem colonFree_natRepr (n : Nat) : colonFree (natRepr n) := by
  unfold natRepr
  by_cases h : n = 0
  · rw [if_pos h]; decide
  · rw [if_neg h]; exact natReprAux_colonFree (n + 1) n

theorem colonFree_append {s t : String} (hs : colonFree s) (ht : colonFree t) :
    colonFree (s ++ t) := by
  intro h
  have h2 : ':' ∈ s.data ++ t.data := by rw [← String.data_append]; exact h
  rcases List.mem_append.mp h2 with h3 | h3
  · exact hs h3
  · exact ht h3

theorem colonFree_pad2 (n : Nat) : colonFree (pad2 n) := by
  unfold pad2
  split
  · exact colonFree_append (by decide) (colonFree_natRepr n)
  · exact colonFree_natRepr n

theorem colonFree_pad4 (n : Nat) : colonFree (pad4 n) := by
  unfold pad4
  split
  · exact colonFree_append (by decide) (colonFree_natRepr n)
  · split
    · exact colonFree_append (by decide) (colonFree_natRepr n)
    · split
      · exact colonFree_append (by decide) (colonFree_natRepr n)
      · exact colonFree_natRepr n

theorem colonFree_strftimeProd (t : Timestamp) : colonFree (strftimeProd t) := by
  unfold strftimeProd
  repeat
    first
    | exact colonFree_pad4 _
    | exact colonFree_pad2 _
    | exact (by decide : colonFree "-")
    | exact (by decide : colonFree "T")
    | apply colonFree_append

theorem pyFormat_claim_template (ts : String) :
    pyFormat "\x7bdataset\x7d_\x7bdescribe\x7d_\x7btimestamp\x7d"
      [("dataset", "QCL"), ("describe", describeStr 3 5), ("timestamp", ts)]
      = some ("QCL_3items_5years_" ++ ts) := by
  have h1 : pyFormat "\x7bdataset\x7d_\x7bdescribe\x7d_\x7btimestamp\x7d"
      [("dataset", "QCL"), ("describe", describeStr 3 5), ("timestamp", ts)]
      = some (String.mk ("QCL_3items_5years_".data ++ (ts.data ++ []))) := rfl
  rw [h1, List.append_nil]
  rfl

/-- C3 counterexample: in the production entry point, label resolution with
zero matches against a nonempty catalog does not fail: it returns the empty
code list normally. -/
theorem C3_label_resolution_counterexample :
    resolveLabelsProd [⟨882, "Raw milk of cattle"⟩] ["Wheat"] = Except.ok ([] : List Int) := rfl

/-- C3 amended: on an empty catalog both entry points raise KeyError at the
label-column access (for description in the price script after its
fallback, for label in the production script) before any match check. On a
nonempty catalog, the price entry point fails with ValueError exactly when
the requested label set matches zero catalog entries, and with at least one
match returns exactly the integer codes of the matching entries (membership
is exact, and the codes are free of duplicates whenever the catalog codes
are); the production entry point performs no zero-match check and returns
the possibly empty matching codes without error. -/
theorem C3_label_resolution_amended :
    ∀ (catalog : List CodeEntry) (wanted : List String),
      (catalog = [] →
        resolveLabelsPrice catalog wanted = Except.error (PyErr.keyError "description")
        ∧ resolveLabelsProd catalog wanted = Except.error (PyErr.keyError "label"))
      ∧ (catalog ≠ [] → catalog.filter (fun e => decide (e.label ∈ wanted)) = [] →
        resolveLabelsPrice catalog wanted
          = Except.error (PyErr.valueError (noMatchMsg wanted)))
      ∧ (catalog.filter (fun e => decide (e.label ∈ wanted)) ≠ [] →
        resolveLabelsPrice catalog wanted
          = Except.ok ((catalog.filter (fun e => decide (e.label ∈ wanted))).map CodeEntry.code))
      ∧ (∀ c : Int,
          c ∈ (catalog.filter (fun e => decide (e.label ∈ wanted))).map CodeEntry.code
            ↔ ∃ e, e ∈ catalog ∧ e.label ∈ wanted ∧ e.code = c)
      ∧ ((catalog.map CodeEntry.code).Nodup →
          ((catalog.filter (fun e => decide (e.label ∈ wanted))).map CodeEntry.code).Nodup)
      ∧ (catalog ≠ [] →
        resolveLabelsProd catalog wanted
          = Except.ok ((catalog.filter (fun e => decide (e.label ∈ wanted))).map CodeEntry.code)) := by
  intro catalog wanted
  refine ⟨?_, ?_, ?_, ?_, ?_, ?_⟩
  · intro h
    exact ⟨by simp [resolveLabelsPrice, h], by simp [resolveLabelsProd, h]⟩
  · intro hcat h
    simp [resolveLabelsPrice, hcat, h]
  · intro h
    have hcat : catalog ≠ [] := by
      intro hc
      rw [hc] at h
      exact h rfl
    simp [resolveLabelsPrice, hcat, h]
  · intro c
    simp only [List.mem_map, List.mem_filter, decide_eq_true_eq]
    constructor
    · rintro ⟨e, ⟨he, hl⟩, hc⟩; exact ⟨e, he, hl, hc⟩
    · rintro ⟨e, he, hl, hc⟩; exact ⟨e, ⟨he, hl⟩, hc⟩
  · intro h
    exact List.Nodup.sublist (List.Sublist.map CodeEntry.code (List.filter_sublist catalog)) h
  · intro h
    simp [resolveLabelsProd, h]

/-- C3 witness: a two-entry catalog of which one label is requested resolves
to exactly that entry's code. -/
theorem C3_label_resolution_amended_witness :
    resolveLabelsPrice [⟨882, "Raw milk of cattle"⟩, ⟨883, "Other"⟩] ["Raw milk of cattle"]
      = Except.ok [882] :=
  (C3_label_resolution_amended [⟨882, "Raw milk of cattle"⟩, ⟨883, "Other"⟩]
      ["Raw milk of cattle"]).2.2.1 (by decide)

/-- C8: substituting dataset QCL, 3 items and 5 years into the template
dataset_describe_timestamp yields QCL_3items_5years_ followed by the
timestamp, so the result contains QCL and 3items_5years verbatim plus the
timestamp, whose declared format is colon-free; and in general the
production export driver substitutes the item count, the year count and the
formatted timestamp into the caller-supplied template. -/
theorem C8_filename_templating :
    (∀ t : Timestamp,
      pyFormat "\x7bdataset\x7d_\x7bdescribe\x7d_\x7btimestamp\x7d"
          [("dataset", "QCL"), ("describe", describeStr 3 5), ("timestamp", strftimeProd t)]
        = some ("QCL_3items_5years_" ++ strftimeProd t)
      ∧ strContains ("QCL_3items_5years_" ++ strftimeProd t) "QCL"
      ∧ strContains ("QCL_3items_5years_" ++ strftimeProd t) "3items_5years"
      ∧ strContains ("QCL_3items_5years_" ++ strftimeProd t) (strftimeProd t)
      ∧ colonFree (strftimeProd t))
    ∧ (∀ (tmpl domain : String) (crops : List String) (years : List Int) (t : Timestamp),
        prodFilename tmpl domain crops years t
          = pyFormat tmpl
              [("dataset", domain), ("describe", describeStr crops.length years.length),
               ("timestamp", strftimeProd t)]) := by
  constructor
  · intro t
    refine ⟨pyFormat_claim_template (strftimeProd t), ?_, ?_, ?_, colonFree_strftimeProd t⟩
    · refine ⟨[], "_3items_5years_".data ++ (strftimeProd t).data, ?_⟩
      rw [String.data_append]; rfl
    · refine ⟨"QCL_".data, "_".data ++ (strftimeProd t).data, ?_⟩
      rw [String.data_append]; rfl
    · refine ⟨"QCL_3items_5years_".data, [], ?_⟩
      rw [String.data_append, List.append_nil]
  · intro tmpl domain crops years t
    rfl

/-- C10: whenever the price loader returns a filename, that filename is the
template substituted with the lengths of the requested grains and years
lists (independently of how many labels matched the catalog), and likewise
the production loader's filename uses the lengths of the requested crops
and years lists. -/
theorem C10_filename_counts :
    (∀ (domain : String) (catalog : List CodeEntry) (grains : List String) (years : List Int)
        (output_csv : String) (testFetch : Int → Int → Except PyErr (List RecT))
        (fetch : List Int → List Int → Except PyErr (List RecT)) (t : Timestamp) (fname : String),
      load_price_data_of_grains domain catalog grains years output_csv testFetch fetch t
        = Except.ok fname →
      priceFilename output_csv grains years t = some fname)
    ∧ (∀ (domain : String) (catalog : List CodeEntry) (crops : List String) (years : List Int)
        (tmpl : String) (fetch : List Int → List Int → Except PyErr (List RecT)) (t : Timestamp)
        (df : DfT) (fname : String),
      load_production_data_of_crops_and_livestock_products domain catalog crops years
          (some tmpl) fetch t
        = Except.ok (df, some fname) →
      prodFilename tmpl domain crops years t = some fname) := by
  constructor
  · intro domain catalog grains years output_csv testFetch fetch t fname h
    unfold load_price_data_of_grains at h
    split at h
    · exact Except.noConfusion h
    split at h
    · exact Except.noConfusion h
    split at h
    · exact Except.noConfusion h
    split at h
    · exact Except.noConfusion h
    split at h
    · exact Except.noConfusion h
    next fname2 hfmt =>
      injection h with h2
      rw [hfmt, h2]
  · intro domain catalog crops years tmpl fetch t df fname h
    unfold load_production_data_of_crops_and_livestock_products at h
    split at h
    · exact Except.noConfusion h
    split at h
    next heq => exact Option.noConfusion heq
    next fname2 heq2 =>
      injection heq2 with htmpl
      subst htmpl
      split at h
      · exact Except.noConfusion h
      next fname3 hfmt =>
        injection h with h2
        have h4 : some fname3 = some fname := congrArg Prod.snd h2
        injection h4 with h5
        rw [hfmt, h5]

/-- C10 witness: with three requested grains of which only one matches the
catalog, and two requested years, the generated filename still counts three
grains and two years. -/
theorem C10_filename_counts_witness :
    priceFilename "faostat_prices_\x7bn_grains\x7dgrains_\x7bn_years\x7dyears_\x7bts\x7d.csv"
      ["Rice", "Wheat", "Maize"] [2020, 2021] ⟨2025, 1, 2, 3, 4, 5⟩
      = some "faostat_prices_3grains_2years_20250102T030405.csv" :=
  C10_filename_counts.1 "PP" [⟨27, "Rice"⟩] ["Rice", "Wheat", "Maize"] [2020, 2021]
    "faostat_prices_\x7bn_grains\x7dgrains_\x7bn_years\x7dyears_\x7bts\x7d.csv"
    (fun _ _ => Except.ok []) (fun _ _ => Except.ok [])
    ⟨2025, 1, 2, 3, 4, 5⟩ "faostat_prices_3grains_2years_20250102T030405.csv" rfl
